import Mathlib

set_option maxHeartbeats 1000000
set_option maxRecDepth 4000

/- Verification development for the iridium_disconnect_analysis repository.

   Transcript text is modelled as `List Char`.  Each regular expression of
   `log_regexes.py` is translated into a deterministic prefix matcher
   `List Char → Option (List Char)` returning the rest of the input after the
   match.  Character classes are read over ASCII.  For every pattern except
   `xfer_type_reg`, Python's greedy backtracking is deterministic: whenever a
   greedy repetition is cut short, the next input character still belongs to
   the repeated class while the following regex atom requires a character
   outside that class, so only the maximal repetition can succeed.  The
   matchers below therefore consume maximal runs directly.  `xfer_type_reg`
   (`Starting zModem transfer of \d+.([a-z]{3})`) genuinely backtracks over
   the length of the digit run, which `tryDigits` reproduces. -/

def isDigitC (c : Char) : Bool := decide ('0' ≤ c ∧ c ≤ '9')

def isLowerC (c : Char) : Bool := decide ('a' ≤ c ∧ c ≤ 'z')

def isWordC (c : Char) : Bool :=
  c == '_' || decide ('a' ≤ c ∧ c ≤ 'z') || decide ('A' ≤ c ∧ c ≤ 'Z') || isDigitC c

/- character class of `usecmd` is `[_A_Za-z0-9]` (sic): underscore, the two
   single letters A and Z, lowercase letters, digits. -/
def isUseClassC (c : Char) : Bool :=
  c == '_' || c == 'A' || c == 'Z' || decide ('a' ≤ c ∧ c ≤ 'z') || isDigitC c

/- literal matcher: consume the pattern as an exact prefix. -/
def litM : List Char → List Char → Option (List Char)
  | [], s => some s
  | _ :: _, [] => none
  | p :: ps, c :: cs => if p = c then litM ps cs else none

def pLit (pat : String) (s : List Char) : Option (List Char) :=
  litM pat.toList s

/- one-or-more repetition of a character class, maximal run. -/
def takeWhile1 (p : Char → Bool) (s : List Char) : Option (List Char) :=
  match s with
  | c :: cs => if p c then some (cs.dropWhile p) else none
  | [] => none

def nlAfter (s : List Char) : Option (List Char) :=
  match s with
  | '\n' :: r => some r
  | _ => none

/- `(?: [01])*`, maximal repetition. -/
def repPairs : List Char → List Char
  | ' ' :: '0' :: rest => repPairs rest
  | ' ' :: '1' :: rest => repPairs rest
  | s => s

/- `(?: reset| pico)*`, maximal repetition. -/
def exitReps : List Char → List Char
  | ' ' :: 'r' :: 'e' :: 's' :: 'e' :: 't' :: rest => exitReps rest
  | ' ' :: 'p' :: 'i' :: 'c' :: 'o' :: rest => exitReps rest
  | s => s

/- the intentional-disconnect phrases of log_regexes.py -/

def callback1 : String := "I am going to hangup the Iridium!"

def callbackKw : String := "callback "

def matchCallback1 (s : List Char) : Option (List Char) := pLit callback1 s

/- `[^_]callback \d+(?: [01])*\n` -/
def matchCallback2 : List Char → Option (List Char)
  | c :: r =>
    if c = '_' then none else
    (pLit callbackKw r).bind fun r2 =>
    (takeWhile1 isDigitC r2).bind fun r3 =>
    nlAfter (repPairs r3)
  | [] => none

def hKw : String := "H "

/- `H \d+(?: [01])*\n` -/
def matchCallback3 (s : List Char) : Option (List Char) :=
  (pLit hKw s).bind fun r =>
  (takeWhile1 isDigitC r).bind fun r2 =>
  nlAfter (repPairs r2)

def housekeeping : String := "Housekeeping is done"

def matchHousekeeping (s : List Char) : Option (List Char) := pLit housekeeping s

def ctrlr2 : String := "I heard a Control-R"

def matchCtrlr2 (s : List Char) : Option (List Char) := pLit ctrlr2 s

def ctrlr3 : String := "User typed Control-R, resuming"

def matchCtrlr3 (s : List Char) : Option (List Char) := pLit ctrlr3 s

def freewave_xfer : String := "using FREEWAVE as console"

def matchFreewave (s : List Char) : Option (List Char) := pLit freewave_xfer s

def useKw : String := "use "

def spaceKw : String := " "

/- `[^_]use (?:\+|-) [_A_Za-z0-9]+\n` -/
def matchUsecmd : List Char → Option (List Char)
  | c :: r =>
    if c = '_' then none else
    (pLit useKw r).bind fun r2 =>
    (match r2 with
     | '+' :: r3 => some r3
     | '-' :: r3 => some r3
     | _ => none).bind fun r3 =>
    (pLit spaceKw r3).bind fun r4 =>
    (takeWhile1 isUseClassC r4).bind fun r5 =>
    nlAfter r5
  | [] => none

def exitKw : String := "exit"

/- `exit(?: reset| pico)*\n` -/
def matchExitreset (s : List Char) : Option (List Char) :=
  (pLit exitKw s).bind fun r => nlAfter (exitReps r)

def exitdevices : String := "Exiting all devices"

def matchExitdevices (s : List Char) : Option (List Char) := pLit exitdevices s

/- `intentional_regex`: the alternation of the ten phrases, in source order. -/
def matchIntentional (s : List Char) : Option (List Char) :=
  matchCallback1 s <|> matchCallback2 s <|> matchCallback3 s <|>
  matchHousekeeping s <|> matchCtrlr2 s <|> matchCtrlr3 s <|>
  matchFreewave s <|> matchUsecmd s <|> matchExitreset s <|>
  matchExitdevices s

def mistartKw : String := "Starting Mission: "

def miExt : String := ".mi"

/- `Starting Mission: [_a-zA-Z0-9]+\.mi` -/
def matchMistart1 (s : List Char) : Option (List Char) :=
  (pLit mistartKw s).bind fun r =>
  (takeWhile1 isWordC r).bind fun r2 =>
  pLit miExt r2

def mistart2 : String := "load_mission(): Opening Mission file:"

def matchMistart2 (s : List Char) : Option (List Char) := pLit mistart2 s

/- `mi_start_regex = mistart1 | mistart2` -/
def matchMiStart (s : List Char) : Option (List Char) :=
  matchMistart1 s <|> matchMistart2 s

def ctrlC : String := "^C"

def abnormalKw : String := "Mission completed ABNORMALLY"

/- the inline cancellation regex `\^C|Mission completed ABNORMALLY` -/
def matchCancel (s : List Char) : Option (List Char) :=
  pLit ctrlC s <|> pLit abnormalKw s

def gdosKw : String := "GliderDos "

def promptEnd : String := " >"

/- `gdos_reg = GliderDos (?:A|N|I) -*\d+ >` -/
def matchGdos (s : List Char) : Option (List Char) :=
  (pLit gdosKw s).bind fun r =>
  (match r with
   | 'A' :: r2 => some r2
   | 'N' :: r2 => some r2
   | 'I' :: r2 => some r2
   | _ => none).bind fun r2 =>
  (pLit spaceKw r2).bind fun r3 =>
  (takeWhile1 isDigitC (r3.dropWhile (fun c => c == '-'))).bind fun r5 =>
  pLit promptEnd r5

def xferOcc : String := "Total Bytes sent/received:"

/- `xfer_reg = Total Bytes sent/received:` -/
def matchXferOcc (s : List Char) : Option (List Char) := pLit xferOcc s

def zmodemKw : String := "Starting zModem transfer of "

/- the tail of `xfer_type_reg` after the digit run: one arbitrary non-newline
   character (the unescaped `.`), then the captured `[a-z]{3}`; returns the
   captured token. -/
def afterDigits : List Char → Option (List Char)
  | c :: c1 :: c2 :: c3 :: _ =>
    if c != '\n' && isLowerC c1 && isLowerC c2 && isLowerC c3 then
      some (c1 :: c2 :: c3 :: []) else none
  | _ => none

/- backtracking over the length of the `\d+` run, longest first. -/
def tryDigits : Nat → List Char → Option (List Char)
  | 0, _ => none
  | k + 1, r => afterDigits (r.drop (k + 1)) <|> tryDigits k r

/- `xfer_type_reg = Starting zModem transfer of \d+.([a-z]{3})`; the result is
   the captured group. -/
def matchXferType (s : List Char) : Option (List Char) :=
  (pLit zmodemKw s).bind fun r =>
  tryDigits (r.takeWhile isDigitC).length r

/- `re.search` semantics: try the matcher at every position, left to right;
   the result is the first (leftmost) successful match. -/
def searchCap (m : List Char → Option (List Char)) : List Char → Option (List Char)
  | [] => m []
  | c :: rest =>
    match m (c :: rest) with
    | some t => some t
    | none => searchCap m rest

def searchB (m : List Char → Option (List Char)) (s : List Char) : Bool :=
  (searchCap m s).isSome

/- `re.finditer` semantics, recording the absolute end offset of every
   (non-overlapping, leftmost) match.  All matchers used here consume at
   least one character whenever they succeed, so a fuel of one step per
   character suffices and the scan below is exact. -/
def finditerGo (m : List Char → Option (List Char)) :
    Nat → List Char → Nat → List Nat
  | 0, _, _ => []
  | _ + 1, [], _ => []
  | fuel + 1, c :: rest, pos =>
    match m (c :: rest) with
    | some r =>
      (pos + ((c :: rest).length - r.length)) ::
        finditerGo m fuel (rest.drop ((c :: rest).length - r.length - 1))
          (pos + ((c :: rest).length - r.length))
    | none => finditerGo m fuel rest (pos + 1)

def finditerEnds (m : List Char → Option (List Char)) (s : List Char) : List Nat :=
  finditerGo m (s.length + 1) s 0

/- Session Classifier: `log_disconnect_info` of iridium_disconnect_analysis.py
   (text-processing part; the open-time comes from an external collaborator).
   `mi_ends` is `list(mi_start_regex.finditer(filetext))` reduced to the match
   end offsets; `current_text` is the value of the variable `filetext` after
   the optional truncation at `matchlist[-1].end()`. -/

def mi_ends (filetext : List Char) : List Nat :=
  finditerEnds matchMiStart filetext

def mi_started (filetext : List Char) : Bool :=
  !(mi_ends filetext).isEmpty

def current_text (filetext : List Char) : List Char :=
  match (mi_ends filetext).getLast? with
  | some e => filetext.drop e
  | none => filetext

/- `intentional_disconnect = True` set inside the `if matchlist:` branch when
   no `\^C|Mission completed ABNORMALLY` occurs after the last mission start. -/
def mi_intentional (filetext : List Char) : Bool :=
  mi_started filetext && !(searchB matchCancel (current_text filetext))

/- final value of `intentional_disconnect`: the mission-start branch, else the
   `intentional_regex` scan over the (possibly truncated) `filetext`. -/
def intentional_of (filetext : List Char) : Bool :=
  mi_intentional filetext || searchB matchIntentional (current_text filetext)

/- `in_mission` from `gdos_reg.search(filetext)` on the full transcript. -/
def in_mission_of (filetext : List Char) : Bool :=
  !(searchB matchGdos filetext)

/- `filetext.split('\n')` (never empty; `""` splits to `[""]`). -/
def splitNl : List Char → List (List Char)
  | [] => [[]]
  | '\n' :: rest => [] :: splitNl rest
  | c :: rest =>
    match splitNl rest with
    | l :: ls => (c :: l) :: ls
    | [] => [c :: []]

/- `"\n".join(lines)` -/
def joinNl : List (List Char) → List Char
  | [] => []
  | [l] => l
  | l :: ls => l ++ '\n' :: joinNl ls

def toLowerStr (s : List Char) : List Char := s.map Char.toLower

/- `re.match(r's[bc]d', tok)`: prefix match. -/
def sbcdTok : List Char → Bool
  | a :: b :: c :: _ => a == 's' && (b == 'b' || b == 'c') && c == 'd'
  | _ => false

/- `re.match(r't[bc]d', tok)`: prefix match. -/
def tbcdTok : List Char → Bool
  | a :: b :: c :: _ => a == 't' && (b == 'b' || b == 'c') && c == 'd'
  | _ => false

/- `rematch = xfer_reg.search(filelines[-1])` of `_determine_xfer_drops`. -/
def drop_xfer_of (filetext : List Char) : Bool :=
  searchB matchXferOcc ((splitNl filetext).getLastD [])

/- `_determine_xfer_drops(filetext)`: the reverse-line-order marker search is
   `xfer_type_reg.search("\n".join(reversed(filelines)))`. -/
def determine_xfer_drops (filetext : List Char) : Bool × Bool × Bool × Bool :=
  if drop_xfer_of filetext then
    match searchCap matchXferType (joinNl (splitNl filetext).reverse) with
    | some tok =>
      if sbcdTok (toLowerStr tok) then (true, true, false, false)
      else if tbcdTok (toLowerStr tok) then (true, false, true, false)
      else (true, false, false, true)
    | none => (true, false, false, false)
  else (false, false, false, false)

structure Verdict where
  intentional_disconnect : Bool
  in_mission : Bool
  drop_xfer : Bool
  flight_xfer : Bool
  sci_xfer : Bool
  other_xfer : Bool
deriving DecidableEq

def assertConflictMsg : String := "Error of dropped call assertion"

/- the verdict assembled from the computed flags. -/
def verdict_of (filetext : List Char) : Verdict :=
  ⟨intentional_of filetext, in_mission_of filetext,
   (determine_xfer_drops (current_text filetext)).1,
   (determine_xfer_drops (current_text filetext)).2.1,
   (determine_xfer_drops (current_text filetext)).2.2.1,
   (determine_xfer_drops (current_text filetext)).2.2.2⟩

/- `log_disconnect_info` (classification part): computes the flags and runs
   the final consistency assertion; an AssertionError is an `Except.error`. -/
def log_disconnect_info (filetext : List Char) : Except String Verdict :=
  if intentional_of filetext || (determine_xfer_drops (current_text filetext)).1 then
    if (determine_xfer_drops (current_text filetext)).1 != intentional_of filetext then
      Except.ok (verdict_of filetext)
    else Except.error assertConflictMsg
  else Except.ok (verdict_of filetext)

/- Aggregator: `logcall_summary`.  The boolean columns of the dataframe are a
   list of Verdicts; `sum` over a boolean column is `countP`. -/

def countV (p : Verdict → Bool) (vs : List Verdict) : Nat := vs.countP p

def n_calls (vs : List Verdict) : Nat := vs.length

def n_drops (vs : List Verdict) : Nat :=
  countV (fun v => !v.intentional_disconnect) vs

def n_int_disc (vs : List Verdict) : Nat :=
  countV (fun v => v.intentional_disconnect) vs

def n_inmis (vs : List Verdict) : Nat := countV (fun v => v.in_mission) vs

def n_gdos (vs : List Verdict) : Nat := countV (fun v => !v.in_mission) vs

def n_fli_xfer_drops (vs : List Verdict) : Nat :=
  countV (fun v => v.flight_xfer) vs

def n_sci_xfer_drops (vs : List Verdict) : Nat :=
  countV (fun v => v.sci_xfer) vs

def n_other_xfer_drops (vs : List Verdict) : Nat :=
  countV (fun v => v.other_xfer) vs

def n_inmis_drops (vs : List Verdict) : Nat :=
  countV (fun v => v.in_mission && !v.intentional_disconnect) vs

def n_inmis_discs (vs : List Verdict) : Nat :=
  countV (fun v => v.in_mission && v.intentional_disconnect) vs

def n_gdos_drops (vs : List Verdict) : Nat :=
  countV (fun v => !v.in_mission && !v.intentional_disconnect) vs

def n_gdos_discs (vs : List Verdict) : Nat :=
  countV (fun v => !v.in_mission && v.intentional_disconnect) vs

def n_data_xfer_drops (vs : List Verdict) : Nat :=
  countV (fun v => v.drop_xfer) vs

def n_mis_xfer_drops (vs : List Verdict) : Nat :=
  countV (fun v => v.drop_xfer && (v.in_mission && !v.intentional_disconnect)) vs

def n_gdos_xfer_drops (vs : List Verdict) : Nat :=
  countV (fun v => v.drop_xfer && (!v.in_mission && !v.intentional_disconnect)) vs

def n_fli_xfer_drops_inmis (vs : List Verdict) : Nat :=
  countV (fun v =>
    (v.drop_xfer && (v.in_mission && !v.intentional_disconnect)) && v.flight_xfer) vs

def n_sci_xfer_drops_inmis (vs : List Verdict) : Nat :=
  countV (fun v =>
    (v.drop_xfer && (v.in_mission && !v.intentional_disconnect)) && v.sci_xfer) vs

def n_oth_xfer_drops_inmis (vs : List Verdict) : Nat :=
  countV (fun v =>
    (v.drop_xfer && (v.in_mission && !v.intentional_disconnect)) && v.other_xfer) vs

def n_fli_xfer_drops_gdos (vs : List Verdict) : Nat :=
  countV (fun v =>
    (v.drop_xfer && (!v.in_mission && !v.intentional_disconnect)) && v.flight_xfer) vs

def n_sci_xfer_drops_gdos (vs : List Verdict) : Nat :=
  countV (fun v =>
    (v.drop_xfer && (!v.in_mission && !v.intentional_disconnect)) && v.sci_xfer) vs

def n_oth_xfer_drops_gdos (vs : List Verdict) : Nat :=
  countV (fun v =>
    (v.drop_xfer && (!v.in_mission && !v.intentional_disconnect)) && v.other_xfer) vs

def zdeMsg : String := "ZeroDivisionError"

/- Python `/` on the counts: raises ZeroDivisionError on a zero denominator. -/
def pydiv (a b : ℚ) : Except String ℚ :=
  if b = 0 then Except.error zdeMsg else Except.ok (a / b)

def assertMsg1 : String := "In mission drops and disconnects do not add up"

def assertMsg2 : String := "gliderdos drops and disconnects do not add up"

/- Python `assert cond, msg`. -/
def pyassert (b : Prop) [Decidable b] (msg : String) : Except String Unit :=
  if b then Except.ok () else Except.error msg

structure Summary where
  s_calls : Nat
  s_drops : Nat
  s_disconnects : Nat
  s_mission_calls : Nat
  s_gliderdos_calls : Nat
  s_mission_drops : Nat
  s_mission_discs : Nat
  s_gliderdos_drops : Nat
  s_gliderdos_discs : Nat
  s_data_xfer_drops : Nat
  s_mission_xfer_drops : Nat
  s_gliderdos_xfer_drops : Nat
  s_flight_xfer_drops : Nat
  s_science_xfer_drops : Nat
  s_other_xfer_drops : Nat
  s_mission_flight_xfer_drops : Nat
  s_mission_science_xfer_drops : Nat
  s_mission_other_xfer_drops : Nat
  s_gliderdos_flight_xfer_drops : Nat
  s_gliderdos_science_xfer_drops : Nat
  s_gliderdos_other_xfer_drops : Nat
  disconnects_pct : ℚ
  dropped_calls_pct : ℚ
  mission_drops_pct : ℚ
  mission_discs_pct : ℚ
  gliderdos_drops_pct : ℚ
  gliderdos_discs_pct : ℚ
  data_xfer_drops_pct : ℚ
  flight_xfer_drops_pct : ℚ
  science_xfer_drops_pct : ℚ
  other_xfer_drops_pct : ℚ
  mission_flight_xfer_pct : ℚ
  mission_science_xfer_pct : ℚ
  mission_other_xfer_pct : ℚ
  gliderdos_flight_xfer_pct : ℚ
  gliderdos_science_xfer_pct : ℚ
  gliderdos_other_xfer_pct : ℚ
deriving DecidableEq

/- the pure tail of `logcall_summary`: all remaining rates are guarded with
   `if denominator > 0 else 0` in the source. -/
def mkSummary (vs : List Verdict) (drop_call_rate int_disc_rate : ℚ) : Summary :=
  let inmis_drop_rate : ℚ :=
    if n_inmis vs > 0 then (n_inmis_drops vs : ℚ) / (n_inmis vs : ℚ) else 0
  let inmis_disc_rate : ℚ :=
    if n_inmis vs > 0 then (n_inmis_discs vs : ℚ) / (n_inmis vs : ℚ) else 0
  let gdos_drop_rate : ℚ :=
    if n_gdos vs > 0 then (n_gdos_drops vs : ℚ) / (n_gdos vs : ℚ) else 0
  let gdos_disc_rate : ℚ :=
    if n_gdos vs > 0 then (n_gdos_discs vs : ℚ) / (n_gdos vs : ℚ) else 0
  let data_xfer_drop_rate : ℚ :=
    if n_drops vs > 0 then (n_data_xfer_drops vs : ℚ) / (n_drops vs : ℚ) else 0
  let fli_xfer_drop_rate : ℚ :=
    if n_data_xfer_drops vs > 0 then
      (n_fli_xfer_drops vs : ℚ) / (n_data_xfer_drops vs : ℚ) else 0
  let sci_xfer_drop_rate : ℚ :=
    if n_data_xfer_drops vs > 0 then
      (n_sci_xfer_drops vs : ℚ) / (n_data_xfer_drops vs : ℚ) else 0
  let other_xfer_drop_rate : ℚ :=
    if n_data_xfer_drops vs > 0 then
      (n_other_xfer_drops vs : ℚ) / (n_data_xfer_drops vs : ℚ) else 0
  let inmis_fli_xfer_drop_rate : ℚ :=
    if n_mis_xfer_drops vs > 0 then
      (n_fli_xfer_drops_inmis vs : ℚ) / (n_mis_xfer_drops vs : ℚ) else 0
  let inmis_sci_xfer_drop_rate : ℚ :=
    if n_mis_xfer_drops vs > 0 then
      (n_sci_xfer_drops_inmis vs : ℚ) / (n_mis_xfer_drops vs : ℚ) else 0
  let inmis_oth_xfer_drop_rate : ℚ :=
    if n_mis_xfer_drops vs > 0 then
      (n_oth_xfer_drops_inmis vs : ℚ) / (n_mis_xfer_drops vs : ℚ) else 0
  let gdos_fli_xfer_drop_rate : ℚ :=
    if n_gdos_xfer_drops vs > 0 then
      (n_fli_xfer_drops_gdos vs : ℚ) / (n_gdos_xfer_drops vs : ℚ) else 0
  let gdos_sci_xfer_drop_rate : ℚ :=
    if n_gdos_xfer_drops vs > 0 then
      (n_sci_xfer_drops_gdos vs : ℚ) / (n_gdos_xfer_drops vs : ℚ) else 0
  let gdos_oth_xfer_drop_rate : ℚ :=
    if n_gdos_xfer_drops vs > 0 then
      (n_oth_xfer_drops_gdos vs : ℚ) / (n_gdos_xfer_drops vs : ℚ) else 0
  { s_calls := n_calls vs
    s_drops := n_drops vs
    s_disconnects := n_int_disc vs
    s_mission_calls := n_inmis vs
    s_gliderdos_calls := n_gdos vs
    s_mission_drops := n_inmis_drops vs
    s_mission_discs := n_inmis_discs vs
    s_gliderdos_drops := n_gdos_drops vs
    s_gliderdos_discs := n_gdos_discs vs
    s_data_xfer_drops := n_data_xfer_drops vs
    s_mission_xfer_drops := n_mis_xfer_drops vs
    s_gliderdos_xfer_drops := n_gdos_xfer_drops vs
    s_flight_xfer_drops := n_fli_xfer_drops vs
    s_science_xfer_drops := n_sci_xfer_drops vs
    s_other_xfer_drops := n_other_xfer_drops vs
    s_mission_flight_xfer_drops := n_fli_xfer_drops_inmis vs
    s_mission_science_xfer_drops := n_sci_xfer_drops_inmis vs
    s_mission_other_xfer_drops := n_oth_xfer_drops_inmis vs
    s_gliderdos_flight_xfer_drops := n_fli_xfer_drops_gdos vs
    s_gliderdos_science_xfer_drops := n_sci_xfer_drops_gdos vs
    s_gliderdos_other_xfer_drops := n_oth_xfer_drops_gdos vs
    disconnects_pct := int_disc_rate * 100
    dropped_calls_pct := drop_call_rate * 100
    mission_drops_pct := inmis_drop_rate * 100
    mission_discs_pct := inmis_disc_rate * 100
    gliderdos_drops_pct := gdos_drop_rate * 100
    gliderdos_discs_pct := gdos_disc_rate * 100
    data_xfer_drops_pct := data_xfer_drop_rate * 100
    flight_xfer_drops_pct := fli_xfer_drop_rate * 100
    science_xfer_drops_pct := sci_xfer_drop_rate * 100
    other_xfer_drops_pct := other_xfer_drop_rate * 100
    mission_flight_xfer_pct := inmis_fli_xfer_drop_rate * 100
    mission_science_xfer_pct := inmis_sci_xfer_drop_rate * 100
    mission_other_xfer_pct := inmis_oth_xfer_drop_rate * 100
    gliderdos_flight_xfer_pct := gdos_fli_xfer_drop_rate * 100
    gliderdos_science_xfer_pct := gdos_sci_xfer_drop_rate * 100
    gliderdos_other_xfer_pct := gdos_oth_xfer_drop_rate * 100 }

/- `logcall_summary`: the two unguarded divisions by `n_calls` come first
   (source lines 320-321), then the two count assertions (lines 329, 339);
   everything else is pure. -/
def logcall_summary (vs : List Verdict) : Except String Summary :=
  (pydiv (n_drops vs : ℚ) (n_calls vs : ℚ)).bind fun drop_call_rate =>
  (pydiv (n_int_disc vs : ℚ) (n_calls vs : ℚ)).bind fun int_disc_rate =>
  (pyassert (n_inmis_drops vs + n_inmis_discs vs = n_inmis vs) assertMsg1).bind fun _ =>
  (pyassert (n_gdos_drops vs + n_gdos_discs vs = n_gdos vs) assertMsg2).bind fun _ =>
  Except.ok (mkSummary vs drop_call_rate int_disc_rate)

/- `logsdir_iridium_analysis` batch-span computation (line 469): open times in
   seconds, `logopentimes[-1] - logopentimes[0]` in days. -/
def length_days_fromlogs (logopentimes : List ℚ) : ℚ :=
  (logopentimes.getLastD 0 - logopentimes.headD 0) / 86400

/- Helper lemmas -/

/- `re.search` finds a match iff the matcher succeeds at some offset. -/
theorem searchCap_isSome_iff (m : List Char → Option (List Char)) :
    ∀ s : List Char,
      (searchCap m s).isSome = true ↔ ∃ n, (m (s.drop n)).isSome = true := by
  intro s
  induction s with
  | nil =>
    simp only [searchCap]
    constructor
    · intro h
      exact ⟨0, by simpa using h⟩
    · rintro ⟨n, hn⟩
      simpa using hn
  | cons c rest ih =>
    simp only [searchCap]
    cases hm : m (c :: rest) with
    | some t =>
      simp only [Option.isSome_some, true_iff]
      exact ⟨0, by simp [hm]⟩
    | none =>
      simp only []
      rw [ih]
      constructor
      · rintro ⟨n, hn⟩
        exact ⟨n + 1, by simpa using hn⟩
      · rintro ⟨n, hn⟩
        cases n with
        | zero => simp [hm] at hn
        | succ k => exact ⟨k, by simpa using hn⟩

theorem searchB_iff (m : List Char → Option (List Char)) (s : List Char) :
    searchB m s = true ↔ ∃ n, (m (s.drop n)).isSome = true := by
  unfold searchB
  exact searchCap_isSome_iff m s

/- fields of the verdict returned by the classifier. -/
theorem log_disconnect_info_ok (ft : List Char) (v : Verdict)
    (h : log_disconnect_info ft = Except.ok v) :
    v.intentional_disconnect = intentional_of ft ∧
    v.in_mission = in_mission_of ft ∧
    v.drop_xfer = (determine_xfer_drops (current_text ft)).1 ∧
    v.flight_xfer = (determine_xfer_drops (current_text ft)).2.1 ∧
    v.sci_xfer = (determine_xfer_drops (current_text ft)).2.2.1 ∧
    v.other_xfer = (determine_xfer_drops (current_text ft)).2.2.2 := by
  unfold log_disconnect_info at h
  split at h
  · split at h
    · cases h
      simp [verdict_of]
    · exact absurd h (by simp)
  · cases h
    simp [verdict_of]

/- the classifier returns a verdict only when the assertion
   `drop_xfer != intentional_disconnect` is satisfiable, hence never with both
   flags true. -/
theorem log_disconnect_info_not_both (ft : List Char) (v : Verdict)
    (h : log_disconnect_info ft = Except.ok v)
    (hi : v.intentional_disconnect = true) : v.drop_xfer = false := by
  unfold log_disconnect_info at h
  split at h
  · split at h
    · rename_i hcond hne
      cases h
      simp only [verdict_of] at hi ⊢
      rw [hi] at hne
      simpa using hne
    · exact absurd h (by simp)
  · rename_i hcond
    cases h
    simp only [verdict_of] at hi
    rw [hi] at hcond
    simp at hcond

/- the drop/disconnect split of any conditioning column: each verdict with
   `p v` true is counted exactly once on each side of the assertion. -/
theorem countV_split (p : Verdict → Bool) (vs : List Verdict) :
    countV (fun v => p v && !v.intentional_disconnect) vs +
      countV (fun v => p v && v.intentional_disconnect) vs = countV p vs := by
  induction vs with
  | nil => rfl
  | cons v t ih =>
    simp only [countV, List.countP_cons] at *
    cases hp : p v <;> cases hi : v.intentional_disconnect <;>
      simp [hp, hi] <;> omega

theorem inmis_count_split (vs : List Verdict) :
    n_inmis_drops vs + n_inmis_discs vs = n_inmis vs :=
  countV_split (fun v => v.in_mission) vs

theorem gdos_count_split (vs : List Verdict) :
    n_gdos_drops vs + n_gdos_discs vs = n_gdos vs :=
  countV_split (fun v => !v.in_mission) vs

/- the only reachable error of the aggregator is the unguarded division by
   the total call count: both count assertions always hold. -/
theorem logcall_summary_error (vs : List Verdict) (e : String)
    (h : logcall_summary vs = Except.error e) : e = zdeMsg := by
  unfold logcall_summary pydiv pyassert at h
  by_cases hc : (n_calls vs : ℚ) = 0
  · rw [if_pos hc] at h
    simp only [Except.bind] at h
    cases h
    rfl
  · rw [if_neg hc, if_neg hc] at h
    rw [if_pos (inmis_count_split vs), if_pos (gdos_count_split vs)] at h
    simp only [Except.bind] at h
    cases h

/- sorted-list facts used for the batch span. -/
theorem sorted_le_getLastD (l : List ℚ) (hs : List.Sorted (· ≤ ·) l) :
    ∀ x ∈ l, x ≤ l.getLastD 0 := by
  induction l with
  | nil => intro x hx; cases hx
  | cons a t ih =>
    intro x hx
    cases t with
    | nil =>
      rw [List.mem_cons] at hx
      rcases hx with hx | hx
      · subst hx
        simp
      · cases hx
    | cons b u =>
      rw [List.sorted_cons] at hs
      have hlast : (a :: b :: u).getLastD 0 = (b :: u).getLastD 0 := by
        simp [List.getLastD]
      rw [List.mem_cons] at hx
      rcases hx with hx | hx
      · subst hx
        rw [hlast]
        have hb : b ≤ (b :: u).getLastD 0 := ih hs.2 b (by simp)
        exact le_trans (hs.1 b (by simp)) hb
      · rw [hlast]
        exact ih hs.2 x hx

theorem sorted_headD_le (l : List ℚ) (hs : List.Sorted (· ≤ ·) l) :
    ∀ x ∈ l, l.headD 0 ≤ x := by
  cases l with
  | nil => intro x hx; cases hx
  | cons a t =>
    intro x hx
    rw [List.sorted_cons] at hs
    rw [List.mem_cons] at hx
    rcases hx with hx | hx
    · subst hx
      simp
    · simpa using hs.1 x hx

theorem getLastD_mem (l : List ℚ) (hne : l ≠ []) : l.getLastD 0 ∈ l := by
  induction l with
  | nil => exact absurd rfl hne
  | cons a t ih =>
    cases t with
    | nil => simp
    | cons b u =>
      have : (a :: b :: u).getLastD 0 = (b :: u).getLastD 0 := by
        simp [List.getLastD]
      rw [this]
      exact List.mem_cons_of_mem a (ih (by simp))

theorem headD_mem (l : List ℚ) (hne : l ≠ []) : l.headD 0 ∈ l := by
  cases l with
  | nil => exact absurd rfl hne
  | cons a t => simp

/- Lemmas showing that a `xfer_type_reg` match never crosses a newline, so the
   search over the reversed-and-rejoined transcript equals a line-by-line scan
   in reverse line order. -/

theorem litM_append_nl (p : List Char) (hp : ∀ c ∈ p, c ≠ '\n') :
    ∀ u b, litM p (u ++ '\n' :: b) = Option.map (fun r => r ++ '\n' :: b) (litM p u) := by
  induction p with
  | nil => intro u b; simp [litM]
  | cons q ps ih =>
    intro u b
    cases u with
    | nil =>
      have hq : q ≠ '\n' := hp q (by simp)
      simp [litM, hq]
    | cons c cs =>
      simp only [List.cons_append, litM]
      by_cases hqc : q = c
      · rw [if_pos hqc, if_pos hqc]
        exact ih (fun x hx => hp x (List.mem_cons_of_mem q hx)) cs b
      · rw [if_neg hqc, if_neg hqc]
        rfl

theorem takeWhile_append_nl (q : Char → Bool) (hq : q '\n' = false) :
    ∀ (u b : List Char), (u ++ '\n' :: b).takeWhile q = u.takeWhile q := by
  intro u b
  induction u with
  | nil => simp [List.takeWhile, hq]
  | cons c cs ih =>
    simp only [List.cons_append, List.takeWhile]
    cases q c <;> simp [ih]

theorem afterDigits_append_nl : ∀ (w b : List Char),
    afterDigits (w ++ '\n' :: b) = afterDigits w := by
  intro w b
  match w with
  | [] =>
    match b with
    | [] => rfl
    | [x] => rfl
    | [x, y] => rfl
    | x :: y :: z :: t => simp [afterDigits]
  | [a] =>
    match b with
    | [] => rfl
    | [x] => rfl
    | x :: y :: t =>
      have : isLowerC '\n' = false := by decide
      simp [afterDigits, this]
  | [a, a1] =>
    match b with
    | [] => rfl
    | x :: t =>
      have : isLowerC '\n' = false := by decide
      simp [afterDigits, this]
  | [a, a1, a2] =>
    have : isLowerC '\n' = false := by decide
    simp [afterDigits, this]
  | a :: a1 :: a2 :: a3 :: t => rfl

theorem tryDigits_append_nl : ∀ (k : Nat) (u b : List Char), k ≤ u.length →
    tryDigits k (u ++ '\n' :: b) = tryDigits k u := by
  intro k
  induction k with
  | zero => intro u b _; rfl
  | succ j ih =>
    intro u b hk
    simp only [tryDigits]
    have hdrop : (u ++ '\n' :: b).drop (j + 1) = u.drop (j + 1) ++ '\n' :: b := by
      rw [List.drop_append_eq_append_drop]
      have : j + 1 - u.length = 0 := by omega
      rw [this]
      rfl
    rw [hdrop, afterDigits_append_nl, ih u b (by omega)]

theorem takeWhile_len_le (q : Char → Bool) :
    ∀ l : List Char, (l.takeWhile q).length ≤ l.length := by
  intro l
  induction l with
  | nil => simp
  | cons c cs ih =>
    simp only [List.takeWhile]
    cases q c
    · simp
    · simpa using ih

theorem matchXferType_append_nl (u b : List Char) :
    matchXferType (u ++ '\n' :: b) = matchXferType u := by
  unfold matchXferType pLit
  have hp : ∀ c ∈ zmodemKw.toList, c ≠ '\n' := by decide
  rw [litM_append_nl zmodemKw.toList hp u b]
  cases hl : litM zmodemKw.toList u with
  | none => rfl
  | some r =>
    have hq : isDigitC '\n' = false := by decide
    show tryDigits (List.takeWhile isDigitC (r ++ '\n' :: b)).length (r ++ '\n' :: b) =
      tryDigits (List.takeWhile isDigitC r).length r
    rw [takeWhile_append_nl isDigitC hq r b]
    exact tryDigits_append_nl (r.takeWhile isDigitC).length r b
      (takeWhile_len_le isDigitC r)

theorem matchXferType_nil : matchXferType [] = none := rfl

/- the first line of the list that contains a transfer-type marker, with the
   leftmost capture in that line. -/
def firstCap (m : List Char → Option (List Char)) : List (List Char) → Option (List Char)
  | [] => none
  | l :: ls =>
    match searchCap m l with
    | some t => some t
    | none => firstCap m ls

theorem searchCap_append_nl (m : List Char → Option (List Char))
    (hm : ∀ u b, m (u ++ '\n' :: b) = m u) :
    ∀ u b, searchCap m (u ++ '\n' :: b) =
      (match searchCap m u with
       | some t => some t
       | none => searchCap m b) := by
  intro u
  induction u with
  | nil =>
    intro b
    have h0 : m ('\n' :: b) = m [] := hm [] b
    simp [searchCap, h0]
  | cons c u' ih =>
    intro b
    have hc : m (c :: (u' ++ '\n' :: b)) = m (c :: u') := hm (c :: u') b
    show (match m (c :: (u' ++ '\n' :: b)) with
          | some t => some t
          | none => searchCap m (u' ++ '\n' :: b)) =
        (match (match m (c :: u') with
                | some t => some t
                | none => searchCap m u') with
         | some t => some t
         | none => searchCap m b)
    rw [hc, ih b]
    cases m (c :: u') with
    | some t => rfl
    | none => cases searchCap m u' <;> rfl

theorem searchCap_joinNl (m : List Char → Option (List Char))
    (hm : ∀ u b, m (u ++ '\n' :: b) = m u) (hnil : m [] = none) :
    ∀ ls, searchCap m (joinNl ls) = firstCap m ls := by
  intro ls
  induction ls with
  | nil => simp [joinNl, searchCap, firstCap, hnil]
  | cons l t ih =>
    cases t with
    | nil =>
      simp only [joinNl, firstCap]
      cases h : searchCap m l <;> simp [h]
    | cons l' u =>
      have hj : joinNl (l :: l' :: u) = l ++ '\n' :: joinNl (l' :: u) := rfl
      rw [hj, searchCap_append_nl m hm l (joinNl (l' :: u)), ih]
      rfl

/- the transfer-type marker the classifier uses when `drop_xfer` is true:
   scanning the lines of the transcript from the last line upward, the first
   line containing a marker, with the leftmost marker of that line. -/
def latest_line_marker (filetext : List Char) : Option (List Char) :=
  firstCap matchXferType (splitNl filetext).reverse

theorem searchCap_xferType_reverse (filetext : List Char) :
    searchCap matchXferType (joinNl (splitNl filetext).reverse) =
      latest_line_marker filetext :=
  searchCap_joinNl matchXferType matchXferType_append_nl matchXferType_nil
    (splitNl filetext).reverse

/- shape of a captured transfer-type token: three lowercase letters. -/
theorem afterDigits_shape (s t : List Char) (h : afterDigits s = some t) :
    t.length = 3 ∧ ∀ c ∈ t, isLowerC c = true := by
  match s with
  | [] => cases h
  | [_] => cases h
  | [_, _] => cases h
  | [_, _, _] => cases h
  | c :: c1 :: c2 :: c3 :: u =>
    simp only [afterDigits] at h
    by_cases hcond : (c != '\n' && isLowerC c1 && isLowerC c2 && isLowerC c3) = true
    · rw [if_pos hcond] at h
      cases h
      simp only [Bool.and_eq_true] at hcond
      refine ⟨rfl, ?_⟩
      intro x hx
      rw [List.mem_cons, List.mem_cons, List.mem_cons] at hx
      rcases hx with hx | hx | hx | hx
      · exact hx ▸ hcond.1.1.2
      · exact hx ▸ hcond.1.2
      · exact hx ▸ hcond.2
      · cases hx
    · rw [if_neg hcond] at h
      cases h

theorem tryDigits_shape (k : Nat) :
    ∀ (r t : List Char), tryDigits k r = some t →
      t.length = 3 ∧ ∀ c ∈ t, isLowerC c = true := by
  induction k with
  | zero => intro r t h; cases h
  | succ j ih =>
    intro r t h
    unfold tryDigits at h
    cases ha : afterDigits (r.drop (j + 1)) with
    | some w =>
      rw [ha] at h
      simp only [HOrElse.hOrElse, OrElse.orElse, Option.orElse] at h
      exact afterDigits_shape (r.drop (j + 1)) t (ha.trans h)
    | none =>
      rw [ha] at h
      simp only [HOrElse.hOrElse, OrElse.orElse, Option.orElse] at h
      exact ih r t h

theorem matchXferType_shape (s t : List Char) (h : matchXferType s = some t) :
    t.length = 3 ∧ ∀ c ∈ t, isLowerC c = true := by
  unfold matchXferType pLit at h
  cases hl : litM zmodemKw.toList s with
  | none => rw [hl] at h; cases h
  | some r =>
    rw [hl] at h
    exact tryDigits_shape (r.takeWhile isDigitC).length r t h

theorem searchCap_shape (m : List Char → Option (List Char))
    (P : List Char → Prop) (hm : ∀ s t, m s = some t → P t) :
    ∀ s t, searchCap m s = some t → P t := by
  intro s
  induction s with
  | nil => intro t h; exact hm [] t h
  | cons c rest ih =>
    intro t h
    unfold searchCap at h
    cases hc : m (c :: rest) with
    | some w => rw [hc] at h; exact hm (c :: rest) t (hc.trans h)
    | none => rw [hc] at h; exact ih t h

theorem firstCap_shape (m : List Char → Option (List Char))
    (P : List Char → Prop) (hm : ∀ s t, m s = some t → P t) :
    ∀ ls t, firstCap m ls = some t → P t := by
  intro ls
  induction ls with
  | nil => intro t h; cases h
  | cons l u ih =>
    intro t h
    unfold firstCap at h
    cases hc : searchCap m l with
    | some w => rw [hc] at h; exact searchCap_shape m P hm l t (hc.trans h)
    | none => rw [hc] at h; exact ih t h

theorem latest_line_marker_shape (filetext t : List Char)
    (h : latest_line_marker filetext = some t) :
    t.length = 3 ∧ ∀ c ∈ t, isLowerC c = true :=
  firstCap_shape matchXferType
    (fun t => t.length = 3 ∧ ∀ c ∈ t, isLowerC c = true)
    matchXferType_shape (splitNl filetext).reverse t h

/- prefix match of `s[bc]d` against a three-character token is equality with
   one of the two flight extensions. -/
theorem sbcdTok_iff (t : List Char) (h3 : t.length = 3) :
    sbcdTok t = true ↔ (t = 's' :: 'b' :: 'd' :: [] ∨ t = 's' :: 'c' :: 'd' :: []) := by
  match t, h3 with
  | [a, b, c], _ =>
    simp only [sbcdTok, Bool.and_eq_true, Bool.or_eq_true, beq_iff_eq]
    constructor
    · rintro ⟨⟨rfl, hb | hb⟩, rfl⟩
      · subst hb; left; rfl
      · subst hb; right; rfl
    · rintro (h | h) <;> cases h <;> simp

theorem tbcdTok_iff (t : List Char) (h3 : t.length = 3) :
    tbcdTok t = true ↔ (t = 't' :: 'b' :: 'd' :: [] ∨ t = 't' :: 'c' :: 'd' :: []) := by
  match t, h3 with
  | [a, b, c], _ =>
    simp only [tbcdTok, Bool.and_eq_true, Bool.or_eq_true, beq_iff_eq]
    constructor
    · rintro ⟨⟨rfl, hb | hb⟩, rfl⟩
      · subst hb; left; rfl
      · subst hb; right; rfl
    · rintro (h | h) <;> cases h <;> simp

/- Auxiliary facts about `determine_xfer_drops` -/

theorem determine_xfer_drops_true (ft : List Char) (hdx : drop_xfer_of ft = true) :
    determine_xfer_drops ft =
      (match latest_line_marker ft with
       | some tok =>
         if sbcdTok (toLowerStr tok) then (true, true, false, false)
         else if tbcdTok (toLowerStr tok) then (true, false, true, false)
         else (true, false, false, true)
       | none => (true, false, false, false)) := by
  unfold determine_xfer_drops
  rw [hdx, searchCap_xferType_reverse]
  simp

theorem determine_xfer_drops_some (ft tok : List Char)
    (hdx : drop_xfer_of ft = true)
    (htok : latest_line_marker ft = some tok) :
    determine_xfer_drops ft =
      (if sbcdTok (toLowerStr tok) then (true, true, false, false)
       else if tbcdTok (toLowerStr tok) then (true, false, true, false)
       else (true, false, false, true)) := by
  rw [determine_xfer_drops_true ft hdx, htok]

theorem determine_xfer_drops_none (ft : List Char)
    (hdx : drop_xfer_of ft = true)
    (hnone : latest_line_marker ft = none) :
    determine_xfer_drops ft = (true, false, false, false) := by
  rw [determine_xfer_drops_true ft hdx, hnone]

theorem determine_xfer_drops_fst (ft : List Char) :
    (determine_xfer_drops ft).1 = drop_xfer_of ft := by
  unfold determine_xfer_drops
  cases hdx : drop_xfer_of ft
  · simp
  · simp only [if_true]
    cases searchCap matchXferType (joinNl (splitNl ft).reverse) with
    | none => rfl
    | some tok =>
      by_cases hsb : sbcdTok (toLowerStr tok) = true
      · simp [hsb]
      · by_cases htb : tbcdTok (toLowerStr tok) = true
        · simp [hsb, htb]
        · simp [hsb, htb]

theorem determine_xfer_drops_cases (ft : List Char) :
    determine_xfer_drops ft = (false, false, false, false) ∨
    determine_xfer_drops ft = (true, false, false, false) ∨
    determine_xfer_drops ft = (true, true, false, false) ∨
    determine_xfer_drops ft = (true, false, true, false) ∨
    determine_xfer_drops ft = (true, false, false, true) := by
  unfold determine_xfer_drops
  cases drop_xfer_of ft
  · left; simp
  · simp only [if_true]
    cases searchCap matchXferType (joinNl (splitNl ft).reverse) with
    | none => right; left; rfl
    | some tok =>
      by_cases hsb : sbcdTok (toLowerStr tok) = true
      · right; right; left; simp [hsb]
      · by_cases htb : tbcdTok (toLowerStr tok) = true
        · right; right; right; left; simp [hsb, htb]
        · right; right; right; right; simp [hsb, htb]

/- Concrete transcripts used as witnesses, counterexamples and failing
   inputs. -/

def tlog_early_intent : List Char :=
  ("Exiting all devices\nStarting Mission: a.mi\n^C").toList

def tlog_intent_after_start : List Char :=
  ("Starting Mission: a.mi\n^C\nExiting all devices").toList

def tlog_two_starts : List Char :=
  ("Starting Mission: a.mi\n^C\nStarting Mission: b.mi\nok").toList

def tlog_xfer_before_start : List Char :=
  ("Starting zModem transfer of 1.sbd\nStarting Mission: a.mi\n^C\nTotal Bytes sent/received: 19127").toList

def tlog_plain : List Char := ("hello").toList

def tlog_conflict : List Char :=
  ("Exiting all devices\nTotal Bytes sent/received: 5").toList

def tlog_gdos : List Char := ("GliderDos N -1 >x").toList

def tlog_tbd_xfer : List Char :=
  ("Starting zModem transfer of 7.tbd\nTotal Bytes sent/received: 1").toList

/- Claim theorems -/

/-- C1 counterexample: in the transcript tlog_early_intent at least one
task-start occurrence exists and cancellation evidence is found in the suffix
after the last occurrence, and an intentional-termination pattern occurs in
the full transcript (at offset 0), yet the classifier returns a verdict with
intentional false: the fall-through scan does not look at the full
transcript, refuting the claimed equivalence. -/
theorem C1_counterexample :
    mi_started tlog_early_intent = true ∧
    searchB matchCancel (current_text tlog_early_intent) = true ∧
    (∃ n, (matchIntentional (tlog_early_intent.drop n)).isSome = true) ∧
    log_disconnect_info tlog_early_intent =
      Except.ok ⟨false, true, false, false, false, false⟩ :=
  ⟨by decide, by decide, ⟨0, by decide⟩, by rfl⟩

/-- C1 (amended): when at least one task-start occurrence exists and
cancellation evidence is found in the suffix after the last occurrence, the
classifier falls through to the intentional-termination scan, but that scan
is performed on the truncated suffix (the text after the last task-start
occurrence), not on the original full transcript: intentional is true iff
some intentional-termination pattern occurs in that suffix. -/
theorem C1_fallthrough_scans_suffix (ft : List Char) (v : Verdict)
    (h1 : mi_started ft = true)
    (h2 : searchB matchCancel (current_text ft) = true)
    (h : log_disconnect_info ft = Except.ok v) :
    v.intentional_disconnect = true ↔
      ∃ n, (matchIntentional ((current_text ft).drop n)).isSome = true := by
  have hv := (log_disconnect_info_ok ft v h).1
  have hmi : mi_intentional ft = false := by
    unfold mi_intentional
    rw [h1, h2]
    rfl
  have hint : intentional_of ft = searchB matchIntentional (current_text ft) := by
    unfold intentional_of
    rw [hmi]
    simp
  rw [hv, hint, searchB_iff]

/-- C1 witness: tlog_intent_after_start has a task-start occurrence with a
manual interrupt after it, and an intentional phrase inside the suffix; the
amended theorem applies and classifies it intentional. -/
theorem C1_witness :
    Verdict.intentional_disconnect ⟨true, true, false, false, false, false⟩ = true ↔
      ∃ n, (matchIntentional ((current_text tlog_intent_after_start).drop n)).isSome = true :=
  C1_fallthrough_scans_suffix tlog_intent_after_start
    ⟨true, true, false, false, false, false⟩ (by decide) (by decide) (by rfl)

/-- C4: task-start re-validation uses only the suffix after the last
task-start occurrence: if at least one occurrence exists and no cancellation
evidence occurs in that suffix, the returned verdict is intentional,
irrespective of anything before the last occurrence. -/
theorem C4_revalidation_suffix_only (ft : List Char) (v : Verdict)
    (h1 : mi_started ft = true)
    (h2 : searchB matchCancel (current_text ft) = false)
    (h : log_disconnect_info ft = Except.ok v) :
    v.intentional_disconnect = true := by
  have hv := (log_disconnect_info_ok ft v h).1
  rw [hv]
  unfold intentional_of mi_intentional
  rw [h1, h2]
  rfl

/-- C4 witness: tlog_two_starts contains an early task-start attempt that was
cancelled with a manual interrupt, followed by a later task-start attempt
with no subsequent cancellation evidence; the classifier marks it
intentional. -/
theorem C4_witness :
    Verdict.intentional_disconnect ⟨true, true, false, false, false, false⟩ = true :=
  C4_revalidation_suffix_only tlog_two_starts
    ⟨true, true, false, false, false, false⟩ (by decide) (by decide) (by rfl)

/-- C5: the classifier never returns a verdict with both intentional and
transfer-drop true; when both computed flags are true it raises the
internal-consistency assertion instead; and a verdict with both flags false
is returned for a plain transcript, so non-intentional does not imply
transfer-drop. -/
theorem C5_exclusivity :
    (∀ ft v, log_disconnect_info ft = Except.ok v →
       v.intentional_disconnect = true → v.drop_xfer = false) ∧
    (∀ ft, intentional_of ft = true →
       (determine_xfer_drops (current_text ft)).1 = true →
       log_disconnect_info ft = Except.error assertConflictMsg) ∧
    (∃ v, log_disconnect_info tlog_plain = Except.ok v ∧
       v.intentional_disconnect = false ∧ v.drop_xfer = false) := by
  refine ⟨log_disconnect_info_not_both, ?_, ?_⟩
  · intro ft hi hd
    unfold log_disconnect_info
    rw [hi, hd]
    rfl
  · exact ⟨⟨false, true, false, false, false, false⟩, by rfl, rfl, rfl⟩

/-- C5 witness: the exclusivity applied to the verdict of
tlog_intent_after_start, and the assertion raised on tlog_conflict, whose
computed flags are both true. -/
theorem C5_witness :
    Verdict.drop_xfer ⟨true, true, false, false, false, false⟩ = false ∧
    log_disconnect_info tlog_conflict = Except.error assertConflictMsg :=
  ⟨C5_exclusivity.1 tlog_intent_after_start
     ⟨true, true, false, false, false, false⟩ (by rfl) rfl,
   C5_exclusivity.2.1 tlog_conflict (by decide) (by decide)⟩

/-- C7: in_mission is false iff a task-exit-prompt (GliderDos prompt) match
occurs at some offset of the full transcript, and the verdict returned by the
classifier carries exactly this flag, unaffected by the later task-start
truncation. -/
theorem C7_task_context_full_scan (ft : List Char) :
    (in_mission_of ft = false ↔ ∃ n, (matchGdos (ft.drop n)).isSome = true) ∧
    ∀ v, log_disconnect_info ft = Except.ok v → v.in_mission = in_mission_of ft := by
  constructor
  · unfold in_mission_of
    rw [← searchB_iff matchGdos ft]
    cases searchB matchGdos ft <;> simp
  · intro v h
    exact (log_disconnect_info_ok ft v h).2.1

/-- C7 witness: tlog_gdos contains a GliderDos prompt, the classifier returns
a verdict with in_mission false. -/
theorem C7_witness :
    (in_mission_of tlog_gdos = false ↔
      ∃ n, (matchGdos (tlog_gdos.drop n)).isSome = true) ∧
    Verdict.in_mission ⟨false, false, false, false, false, false⟩ = in_mission_of tlog_gdos :=
  ⟨(C7_task_context_full_scan tlog_gdos).1,
   (C7_task_context_full_scan tlog_gdos).2
     ⟨false, false, false, false, false, false⟩ (by rfl)⟩

/-- C2: evaluation at the failing input: the aggregator applied to the empty
verdict set raises ZeroDivisionError from the unguarded division of the drop
count by the total call count, instead of returning a summary with all rates
zero as the claim requires. -/
theorem C2_empty_summary_raises :
    logcall_summary [] = Except.error zdeMsg := by rfl

/-- C3: evaluation at the failing input: in tlog_xfer_before_start the
classifier truncates the text at the last task-start occurrence before
calling the transfer-drop determination, so the zModem sbd marker that
precedes the task start is not seen and every subtype flag of the returned
verdict is false, while the transfer-drop determination applied to the full
transcript finds the marker and reports a flight transfer drop. -/
theorem C3_xfer_scan_truncated :
    log_disconnect_info tlog_xfer_before_start =
      Except.ok ⟨false, true, true, false, false, false⟩ ∧
    determine_xfer_drops tlog_xfer_before_start = (true, true, false, false) ∧
    current_text tlog_xfer_before_start ≠ tlog_xfer_before_start :=
  ⟨by rfl, by decide, by decide⟩

/-- C8: the aggregation count invariant holds for every verdict set: the
in-task drop count plus the in-task intentional count equals the in-task
total count, likewise for the not-in-task counts, and consequently the only
error the aggregator can produce is the zero-denominator failure, never the
two internal-consistency assertion messages. -/
theorem C8_aggregation_invariant :
    (∀ vs : List Verdict,
       n_inmis_drops vs + n_inmis_discs vs = n_inmis vs ∧
       n_gdos_drops vs + n_gdos_discs vs = n_gdos vs) ∧
    ∀ vs e, logcall_summary vs = Except.error e → e = zdeMsg :=
  ⟨fun vs => ⟨inmis_count_split vs, gdos_count_split vs⟩,
   fun vs e h => logcall_summary_error vs e h⟩

/-- C8 witness: the invariant evaluated on a one-verdict set, and the error
characterization applied to the empty verdict set. -/
theorem C8_witness :
    (n_inmis_drops [⟨false, true, true, true, false, false⟩] +
       n_inmis_discs [⟨false, true, true, true, false, false⟩] =
       n_inmis [⟨false, true, true, true, false, false⟩]) ∧
    zdeMsg = zdeMsg :=
  ⟨(C8_aggregation_invariant.1 [⟨false, true, true, true, false, false⟩]).1,
   C8_aggregation_invariant.2 [] zdeMsg (by rfl)⟩

/-- C9: for a nonempty batch ordered by ascending open time, the reported
elapsed span is the last open time minus the first, in days, and under the
ordering precondition this equals the maximum open time minus the minimum. -/
theorem C9_batch_span (ts : List ℚ) (M m : ℚ)
    (hne : ts ≠ []) (hs : List.Sorted (· ≤ ·) ts)
    (hM : M ∈ ts) (hMub : ∀ x ∈ ts, x ≤ M)
    (hm : m ∈ ts) (hmlb : ∀ x ∈ ts, m ≤ x) :
    length_days_fromlogs ts = (M - m) / 86400 := by
  have h1 : ts.getLastD 0 = M :=
    le_antisymm (hMub _ (getLastD_mem ts hne)) (sorted_le_getLastD ts hs M hM)
  have h2 : ts.headD 0 = m :=
    le_antisymm (sorted_headD_le ts hs m hm) (hmlb _ (headD_mem ts hne))
  unfold length_days_fromlogs
  rw [h1, h2]

/-- C9 witness: a two-entry batch one day apart. -/
theorem C9_witness :
    length_days_fromlogs [(0 : ℚ), 86400] = (86400 - 0) / 86400 :=
  C9_batch_span [(0 : ℚ), 86400] 86400 0 (by simp)
    (by simp [List.sorted_cons])
    (by simp) (by intro x hx; simp at hx; rcases hx with rfl | rfl <;> norm_num)
    (by simp) (by intro x hx; simp at hx; rcases hx with rfl | rfl <;> norm_num)

/-- C10: the transfer-drop determination always returns mutually exclusive
subtype flags, a true subtype flag implies the transfer-drop flag, and when
the transfer-drop flag is false all three subtype flags are false. -/
theorem C10_subtype_flags (ft : List Char) :
    ((determine_xfer_drops ft).2.1 && (determine_xfer_drops ft).2.2.1) = false ∧
    ((determine_xfer_drops ft).2.1 && (determine_xfer_drops ft).2.2.2) = false ∧
    ((determine_xfer_drops ft).2.2.1 && (determine_xfer_drops ft).2.2.2) = false ∧
    ((determine_xfer_drops ft).1 = false →
      (determine_xfer_drops ft).2.1 = false ∧
      (determine_xfer_drops ft).2.2.1 = false ∧
      (determine_xfer_drops ft).2.2.2 = false) ∧
    (((determine_xfer_drops ft).2.1 || (determine_xfer_drops ft).2.2.1 ||
        (determine_xfer_drops ft).2.2.2) = true →
      (determine_xfer_drops ft).1 = true) := by
  rcases determine_xfer_drops_cases ft with h | h | h | h | h <;> rw [h] <;> simp

/-- C10 witness: the no-transfer-drop consequence evaluated on a plain
transcript. -/
theorem C10_witness :
    (determine_xfer_drops tlog_plain).2.1 = false ∧
    (determine_xfer_drops tlog_plain).2.2.1 = false ∧
    (determine_xfer_drops tlog_plain).2.2.2 = false :=
  (C10_subtype_flags tlog_plain).2.2.2.1 (by decide)

/-- C6: for a transcript with the transfer-drop flag true, the marker
considered is the one found by scanning the lines in reverse order (the
marker on the latest line containing one, computed by latest_line_marker and
proven equal to the search over the reversed rejoined text): a lowered token
equal to sbd or scd yields the flight kind, tbd or tcd yields the science
kind, any other captured token yields the other kind, and if no marker is
found at all the transfer-drop flag stays true with all three subtype flags
false. -/
theorem C6_transfer_kind (ft : List Char)
    (hdrop : (determine_xfer_drops ft).1 = true) :
    (∀ tok, latest_line_marker ft = some tok →
       ((determine_xfer_drops ft).2.1 = true ↔
          (toLowerStr tok = 's' :: 'b' :: 'd' :: [] ∨
           toLowerStr tok = 's' :: 'c' :: 'd' :: [])) ∧
       ((determine_xfer_drops ft).2.2.1 = true ↔
          (toLowerStr tok = 't' :: 'b' :: 'd' :: [] ∨
           toLowerStr tok = 't' :: 'c' :: 'd' :: [])) ∧
       ((determine_xfer_drops ft).2.2.2 = true ↔
          (¬(toLowerStr tok = 's' :: 'b' :: 'd' :: [] ∨
             toLowerStr tok = 's' :: 'c' :: 'd' :: []) ∧
           ¬(toLowerStr tok = 't' :: 'b' :: 'd' :: [] ∨
             toLowerStr tok = 't' :: 'c' :: 'd' :: [])))) ∧
    (latest_line_marker ft = none →
       determine_xfer_drops ft = (true, false, false, false)) := by
  have hdx : drop_xfer_of ft = true := by
    rw [← determine_xfer_drops_fst]
    exact hdrop
  have hD := determine_xfer_drops_true ft hdx
  constructor
  · intro tok htok
    have hD2 := determine_xfer_drops_some ft tok hdx htok
    have hsh := latest_line_marker_shape ft tok htok
    have hlen : (toLowerStr tok).length = 3 := by simp [toLowerStr, hsh.1]
    have hsb := sbcdTok_iff (toLowerStr tok) hlen
    have htb := tbcdTok_iff (toLowerStr tok) hlen
    by_cases hs1 : sbcdTok (toLowerStr tok) = true
    · rw [hD2, if_pos hs1]
      refine ⟨⟨fun _ => hsb.mp hs1, fun _ => rfl⟩, ?_, ?_⟩
      · constructor
        · intro hc
          exact absurd hc (by simp)
        · intro hf
          rcases hf with hf | hf <;> rw [hf] at hs1 <;> exact absurd hs1 (by decide)
      · constructor
        · intro hc
          exact absurd hc (by simp)
        · intro hf
          exact absurd (hsb.mp hs1) hf.1
    · by_cases ht1 : tbcdTok (toLowerStr tok) = true
      · rw [hD2, if_neg hs1, if_pos ht1]
        refine ⟨?_, ⟨fun _ => htb.mp ht1, fun _ => rfl⟩, ?_⟩
        · constructor
          · intro hc
            exact absurd hc (by simp)
          · intro hf
            exact absurd (hsb.mpr hf) hs1
        · constructor
          · intro hc
            exact absurd hc (by simp)
          · intro hf
            exact absurd (htb.mp ht1) hf.2
      · rw [hD2, if_neg hs1, if_neg ht1]
        refine ⟨?_, ?_, ?_⟩
        · constructor
          · intro hc
            exact absurd hc (by simp)
          · intro hf
            exact absurd (hsb.mpr hf) hs1
        · constructor
          · intro hc
            exact absurd hc (by simp)
          · intro hf
            exact absurd (htb.mpr hf) ht1
        · constructor
          · intro _
            exact ⟨fun hf => hs1 (hsb.mpr hf), fun hf => ht1 (htb.mpr hf)⟩
          · intro _
            rfl
  · intro hnone
    exact determine_xfer_drops_none ft hdx hnone

/-- C6 witness: tlog_tbd_xfer is a transfer drop whose nearest marker in
reverse line order captures tbd, classified as a science transfer drop. -/
theorem C6_witness :
    (determine_xfer_drops tlog_tbd_xfer).2.2.1 = true ↔
      (toLowerStr ('t' :: 'b' :: 'd' :: []) = 't' :: 'b' :: 'd' :: [] ∨
       toLowerStr ('t' :: 'b' :: 'd' :: []) = 't' :: 'c' :: 'd' :: []) :=
  ((C6_transfer_kind tlog_tbd_xfer (by decide)).1 ('t' :: 'b' :: 'd' :: [])
    (by decide)).2.1
